import Mathlib

/-!
Shallow embedding of the dshell security core (permission manager, builtins,
dispatcher, captured-mode executor environment construction, line-editor
history) and proofs about it.

Rust strings are modelled as lists of characters (`Str`); Rust `HashSet<String>`
as `Finset Str`; `HashMap<String, String>` as association lists; the ambient OS
process environment (`std::env::vars()`) as an explicit list parameter; the
`HOME` variable as an explicit `Option Str` parameter.
-/

/-- A Rust `String`, modelled as its sequence of characters (Rust strings are
UTF-8; character-wise operations below correspond to the byte-wise operations
in the source at character boundaries). -/
abbrev Str := List Char

set_option maxRecDepth 8192

namespace DShell

/-- Rust `char::is_whitespace`: the Unicode `White_Space` property. The 25
White_Space code points are enumerated exactly. -/
def rustIsWhitespace (c : Char) : Bool :=
  c.toNat == 0x09 || c.toNat == 0x0A || c.toNat == 0x0B || c.toNat == 0x0C ||
  c.toNat == 0x0D || c.toNat == 0x20 || c.toNat == 0x85 || c.toNat == 0xA0 ||
  c.toNat == 0x1680 || (0x2000 ≤ c.toNat && c.toNat ≤ 0x200A) ||
  c.toNat == 0x2028 || c.toNat == 0x2029 || c.toNat == 0x202F ||
  c.toNat == 0x205F || c.toNat == 0x3000

/-- Rust `str::trim_start` (drop leading Unicode whitespace). -/
def rustTrimStart (s : Str) : Str := s.dropWhile rustIsWhitespace

/-- Rust `str::trim` (drop leading and trailing Unicode whitespace). -/
def rustTrim (s : Str) : Str :=
  ((s.dropWhile rustIsWhitespace).reverse.dropWhile rustIsWhitespace).reverse

/-- `src/security/permissions.rs`: `enum Permission`. -/
inductive Permission where
  | Allowed
  | Denied
  | AskEveryTime
deriving DecidableEq, Repr

/-- `src/security/permissions.rs`: `struct PermissionManager`. -/
structure PermissionManager where
  env_access_permission : Permission
  allowed_env_vars : Finset Str
  denied_env_vars : Finset Str
  allowed_paths : Finset Str
  denied_paths : Finset Str
deriving DecidableEq

/-- `PermissionManager::new`: policy `AskEveryTime`, thirteen seeded allowed
environment variables, all other sets empty. -/
def PermissionManager.new : PermissionManager :=
  { env_access_permission := .AskEveryTime
    allowed_env_vars :=
      (["HOME".data, "PATH".data, "USER".data, "SHELL".data, "TERM".data,
        "LANG".data, "EDITOR".data, "COLORTERM".data, "RUSTUP_HOME".data,
        "CARGO_HOME".data, "RUST_BACKTRACE".data, "RUSTC".data,
        "RUSTDOC".data] : List Str).toFinset
    denied_env_vars := ∅
    allowed_paths := ∅
    denied_paths := ∅ }

/-- `PermissionManager::set_env_access`. -/
def setEnvAccess (pm : PermissionManager) (p : Permission) : PermissionManager :=
  { pm with env_access_permission := p }

/-- `PermissionManager::check_env_var`. -/
def checkEnvVar (pm : PermissionManager) (v : Str) : Permission :=
  if v ∈ pm.denied_env_vars then .Denied
  else if v ∈ pm.allowed_env_vars then .Allowed
  else pm.env_access_permission

/-- `PermissionManager::allow_env_var`. -/
def allowEnvVar (pm : PermissionManager) (v : Str) : PermissionManager :=
  { pm with denied_env_vars := pm.denied_env_vars.erase v
            allowed_env_vars := insert v pm.allowed_env_vars }

/-- `PermissionManager::deny_env_var`. -/
def denyEnvVar (pm : PermissionManager) (v : Str) : PermissionManager :=
  { pm with allowed_env_vars := pm.allowed_env_vars.erase v
            denied_env_vars := insert v pm.denied_env_vars }

/-- `PermissionManager::expand_tilde`, with the value of the `HOME` environment
variable passed explicitly (`none` models `HOME` unset).  When the guard holds,
the path starts with the character `~`, so Rust's `replacen("~", home, 1)`
replaces exactly that leading character. -/
def expandTilde (home : Option Str) (path : Str) : Str :=
  if "~/".data.isPrefixOf path ∨ path = "~".data then
    match home with
    | some h => h ++ path.drop 1
    | none => path
  else path

/-- `PermissionManager::allow_path`. -/
def allowPath (pm : PermissionManager) (home : Option Str) (path : Str) :
    PermissionManager :=
  let expanded := expandTilde home path
  { pm with denied_paths := pm.denied_paths.erase expanded
            allowed_paths := insert expanded pm.allowed_paths }

/-- `PermissionManager::deny_path`. -/
def denyPath (pm : PermissionManager) (home : Option Str) (path : Str) :
    PermissionManager :=
  let expanded := expandTilde home path
  { pm with allowed_paths := pm.allowed_paths.erase expanded
            denied_paths := insert expanded pm.denied_paths }

/-- The redaction placeholder emitted for `AskEveryTime` variables in
`get_allowed_env_vars`. -/
def redactedValue : Str := "[REDACTED - use \x27allow\x27 command]".data

/-- Key order used by `result.sort_by(|a, b| a.0.cmp(&b.0))`: comparison of the
name components.  Rust compares strings by UTF-8 bytes, which coincides with
the lexicographic order on their character sequences. -/
def envPairLe (a b : Str × Str) : Prop := a.1 ≤ b.1

instance : DecidableRel envPairLe :=
  fun a b => inferInstanceAs (Decidable (a.1 ≤ b.1))

instance : IsTotal (Str × Str) envPairLe :=
  ⟨fun a b => le_total a.1 b.1⟩

instance : IsTrans (Str × Str) envPairLe :=
  ⟨fun _ _ _ hab hbc => le_trans hab hbc⟩

/-- `PermissionManager::get_allowed_env_vars`, with the OS process environment
(`std::env::vars()`) passed explicitly as a list of (name, value) pairs.  The
push-loop over the environment followed by `sort_by` on names is modelled as a
`filterMap` followed by a stable sort on the name component. -/
def getAllowedEnvVars (pm : PermissionManager) (osEnv : List (Str × Str)) :
    List (Str × Str) :=
  List.insertionSort envPairLe <| osEnv.filterMap fun kv =>
    match checkEnvVar pm kv.1 with
    | .Allowed => some kv
    | .Denied => none
    | .AskEveryTime => some (kv.1, redactedValue)

/-- `PermissionManager::list_allowed_env_vars` (collect the set and sort). -/
def listAllowedEnvVars (pm : PermissionManager) : List Str :=
  Finset.sort (· ≤ ·) pm.allowed_env_vars

/-- `PermissionManager::list_denied_env_vars`. -/
def listDeniedEnvVars (pm : PermissionManager) : List Str :=
  Finset.sort (· ≤ ·) pm.denied_env_vars

/-- `PermissionManager::list_allowed_paths`. -/
def listAllowedPaths (pm : PermissionManager) : List Str :=
  Finset.sort (· ≤ ·) pm.allowed_paths

/-- `PermissionManager::list_denied_paths`. -/
def listDeniedPaths (pm : PermissionManager) : List Str :=
  Finset.sort (· ≤ ·) pm.denied_paths

/-- Rendering of `format!("{:?}", permission)` (derived `Debug`). -/
def permissionDebugStr : Permission → Str
  | .Allowed => "Allowed".data
  | .Denied => "Denied".data
  | .AskEveryTime => "AskEveryTime".data

/-- Decimal rendering of a `usize` by `format!("{}", n)`. -/
def natStr (n : Nat) : Str := (Nat.repr n).data

/-- `PermissionManager::get_status`. -/
def getStatus (pm : PermissionManager) : List Str :=
  ["Security Status:".data, [],
   "Global Env Access: ".data ++ permissionDebugStr pm.env_access_permission,
   "Allowed Env Vars: ".data ++ natStr pm.allowed_env_vars.card,
   "Denied Env Vars: ".data ++ natStr pm.denied_env_vars.card]
  ++ (if pm.allowed_env_vars = ∅ then [] else
      [[], "Explicitly Allowed Env Vars:".data]
      ++ (listAllowedEnvVars pm).map (fun v => "  ✓ ".data ++ v))
  ++ (if pm.denied_env_vars = ∅ then [] else
      [[], "Explicitly Denied Env Vars:".data]
      ++ (listDeniedEnvVars pm).map (fun v => "  ✗ ".data ++ v))
  ++ (if pm.allowed_paths = ∅ then [] else
      [[], "Allowed Filesystem Paths:".data]
      ++ (listAllowedPaths pm).map (fun v => "  ✓ ".data ++ v))
  ++ (if pm.denied_paths = ∅ then [] else
      [[], "Denied Filesystem Paths:".data]
      ++ (listDeniedPaths pm).map (fun v => "  ✗ ".data ++ v))

/-! ### Parser (`src/shell/parser.rs`) -/

/-- Accumulator-based splitting on runs of Unicode whitespace
(Rust `str::split_whitespace`); empty fragments are not produced. -/
def splitWhitespaceAux : Str → Str → List Str
  | [], acc => if acc.isEmpty then [] else [acc.reverse]
  | c :: rest, acc =>
    if rustIsWhitespace c then
      if acc.isEmpty then splitWhitespaceAux rest []
      else acc.reverse :: splitWhitespaceAux rest []
    else splitWhitespaceAux rest (c :: acc)

/-- Rust `str::split_whitespace`. -/
def splitWhitespace (s : Str) : List Str := splitWhitespaceAux s []

/-- `src/shell/parser.rs`: `struct ParsedCommand`. -/
structure ParsedCommand where
  command : Str
  args : List Str
  raw_input : Str
deriving DecidableEq, Repr

/-- `ParsedCommand::parse`. -/
def ParsedCommand.parse (input : Str) : Option ParsedCommand :=
  let t := rustTrim input
  if t.isEmpty then none
  else
    match splitWhitespace t with
    | [] => none
    | c :: rest => some ⟨c, rest, t⟩

/-! ### Builtins (`src/shell/builtins.rs`) -/

/-- `src/shell/builtins.rs`: `enum BuiltinCommand`. -/
inductive BuiltinCommand where
  | Exit
  | Clear
  | Help
  | Env
  | Allow (v : Str)
  | Deny (v : Str)
  | AllowAll
  | DenyAll
  | SecurityStatus
  | Export (k v : Str)
  | Echo (args : List Str)
  | AllowPathCmd (p : Str)
  | DenyPathCmd (p : Str)
  | ListAllowedPaths
deriving DecidableEq, Repr

/-- Outcome of the `export` arm of `Builtins::parse`.  `panics` records the
inputs on which the Rust code evaluates `value_part[1..value_part.len() - 1]`
with `value_part.len() == 1`, an out-of-range slice that panics at run time. -/
inductive ExportOutcome where
  | panics
  | noParse
  | setEnv (k v : Str)
deriving DecidableEq, Repr

/-- The `export` arm of `Builtins::parse`, operating on `raw_input`.
`raw.find(char::is_whitespace)` followed by `&raw[first_space..]` is modelled
by dropping the maximal leading run of non-whitespace characters; the byte
length test `value_part.len() == 1` coincides with the character length test
because in that case the single character is a one-byte quote. -/
def exportArm (raw : Str) : ExportOutcome :=
  if raw.any rustIsWhitespace then
    let afterExport := raw.dropWhile (fun c => !rustIsWhitespace c)
    let exportArg := rustTrimStart afterExport
    if exportArg.contains '=' then
      let key := rustTrim (exportArg.takeWhile (fun c => c != '='))
      let valuePart := (exportArg.dropWhile (fun c => c != '=')).drop 1
      if (valuePart.head? = some '"' ∧ valuePart.getLast? = some '"')
          ∨ (valuePart.head? = some '\x27' ∧ valuePart.getLast? = some '\x27') then
        if valuePart.length == 1 then .panics
        else .setEnv key ((valuePart.drop 1).dropLast)
      else .setEnv key valuePart
    else .noParse
  else .noParse

/-- Outcome of `Builtins::parse` (propagating the possible `export` panic). -/
inductive BuiltinParseOutcome where
  | panics
  | notBuiltin
  | builtin (b : BuiltinCommand)
deriving DecidableEq, Repr

/-- `Builtins::parse`. -/
def builtinParse (cmd : ParsedCommand) : BuiltinParseOutcome :=
  if cmd.command = "exit".data ∨ cmd.command = "quit".data then .builtin .Exit
  else if cmd.command = "clear".data ∨ cmd.command = "cls".data then
    .builtin .Clear
  else if cmd.command = "help".data then .builtin .Help
  else if cmd.command = "env".data then .builtin .Env
  else if cmd.command = "allow".data then
    match cmd.args with
    | [] => .builtin .AllowAll
    | a :: _ => .builtin (.Allow a)
  else if cmd.command = "deny".data then
    match cmd.args with
    | [] => .builtin .DenyAll
    | a :: _ => .builtin (.Deny a)
  else if cmd.command = "security".data ∨ cmd.command = "status".data then
    .builtin .SecurityStatus
  else if cmd.command = "export".data then
    match exportArm cmd.raw_input with
    | .panics => .panics
    | .noParse => .notBuiltin
    | .setEnv k v => .builtin (.Export k v)
  else if cmd.command = "echo".data then .builtin (.Echo cmd.args)
  else if cmd.command = "allowpath".data then
    match cmd.args with
    | [] => .notBuiltin
    | a :: _ => .builtin (.AllowPathCmd a)
  else if cmd.command = "denypath".data then
    match cmd.args with
    | [] => .notBuiltin
    | a :: _ => .builtin (.DenyPathCmd a)
  else if cmd.command = "listallowpath".data ∨ cmd.command = "listpaths".data
  then .builtin .ListAllowedPaths
  else .notBuiltin

/-! ### Variable expansion in `echo` -/

/-- The code points of the Unicode 14.0.0 general categories Lu, Ll, Lt, Lm,
Lo, Nd, Nl and No (letters and numbers), as closed ranges. -/
def alnumRanges : List (Nat × Nat) := [
  (0x30, 0x39), (0x41, 0x5A), (0x61, 0x7A), (0xAA, 0xAA),
  (0xB2, 0xB3), (0xB5, 0xB5), (0xB9, 0xBA), (0xBC, 0xBE),
  (0xC0, 0xD6), (0xD8, 0xF6), (0xF8, 0x2C1), (0x2C6, 0x2D1),
  (0x2E0, 0x2E4), (0x2EC, 0x2EC), (0x2EE, 0x2EE), (0x370, 0x374),
  (0x376, 0x377), (0x37A, 0x37D), (0x37F, 0x37F), (0x386, 0x386),
  (0x388, 0x38A), (0x38C, 0x38C), (0x38E, 0x3A1), (0x3A3, 0x3F5),
  (0x3F7, 0x481), (0x48A, 0x52F), (0x531, 0x556), (0x559, 0x559),
  (0x560, 0x588), (0x5D0, 0x5EA), (0x5EF, 0x5F2), (0x620, 0x64A),
  (0x660, 0x669), (0x66E, 0x66F), (0x671, 0x6D3), (0x6D5, 0x6D5),
  (0x6E5, 0x6E6), (0x6EE, 0x6FC), (0x6FF, 0x6FF), (0x710, 0x710),
  (0x712, 0x72F), (0x74D, 0x7A5), (0x7B1, 0x7B1), (0x7C0, 0x7EA),
  (0x7F4, 0x7F5), (0x7FA, 0x7FA), (0x800, 0x815), (0x81A, 0x81A),
  (0x824, 0x824), (0x828, 0x828), (0x840, 0x858), (0x860, 0x86A),
  (0x870, 0x887), (0x889, 0x88E), (0x8A0, 0x8C9), (0x904, 0x939),
  (0x93D, 0x93D), (0x950, 0x950), (0x958, 0x961), (0x966, 0x96F),
  (0x971, 0x980), (0x985, 0x98C), (0x98F, 0x990), (0x993, 0x9A8),
  (0x9AA, 0x9B0), (0x9B2, 0x9B2), (0x9B6, 0x9B9), (0x9BD, 0x9BD),
  (0x9CE, 0x9CE), (0x9DC, 0x9DD), (0x9DF, 0x9E1), (0x9E6, 0x9F1),
  (0x9F4, 0x9F9), (0x9FC, 0x9FC), (0xA05, 0xA0A), (0xA0F, 0xA10),
  (0xA13, 0xA28), (0xA2A, 0xA30), (0xA32, 0xA33), (0xA35, 0xA36),
  (0xA38, 0xA39), (0xA59, 0xA5C), (0xA5E, 0xA5E), (0xA66, 0xA6F),
  (0xA72, 0xA74), (0xA85, 0xA8D), (0xA8F, 0xA91), (0xA93, 0xAA8),
  (0xAAA, 0xAB0), (0xAB2, 0xAB3), (0xAB5, 0xAB9), (0xABD, 0xABD),
  (0xAD0, 0xAD0), (0xAE0, 0xAE1), (0xAE6, 0xAEF), (0xAF9, 0xAF9),
  (0xB05, 0xB0C), (0xB0F, 0xB10), (0xB13, 0xB28), (0xB2A, 0xB30),
  (0xB32, 0xB33), (0xB35, 0xB39), (0xB3D, 0xB3D), (0xB5C, 0xB5D),
  (0xB5F, 0xB61), (0xB66, 0xB6F), (0xB71, 0xB77), (0xB83, 0xB83),
  (0xB85, 0xB8A), (0xB8E, 0xB90), (0xB92, 0xB95), (0xB99, 0xB9A),
  (0xB9C, 0xB9C), (0xB9E, 0xB9F), (0xBA3, 0xBA4), (0xBA8, 0xBAA),
  (0xBAE, 0xBB9), (0xBD0, 0xBD0), (0xBE6, 0xBF2), (0xC05, 0xC0C),
  (0xC0E, 0xC10), (0xC12, 0xC28), (0xC2A, 0xC39), (0xC3D, 0xC3D),
  (0xC58, 0xC5A), (0xC5D, 0xC5D), (0xC60, 0xC61), (0xC66, 0xC6F),
  (0xC78, 0xC7E), (0xC80, 0xC80), (0xC85, 0xC8C), (0xC8E, 0xC90),
  (0xC92, 0xCA8), (0xCAA, 0xCB3), (0xCB5, 0xCB9), (0xCBD, 0xCBD),
  (0xCDD, 0xCDE), (0xCE0, 0xCE1), (0xCE6, 0xCEF), (0xCF1, 0xCF2),
  (0xD04, 0xD0C), (0xD0E, 0xD10), (0xD12, 0xD3A), (0xD3D, 0xD3D),
  (0xD4E, 0xD4E), (0xD54, 0xD56), (0xD58, 0xD61), (0xD66, 0xD78),
  (0xD7A, 0xD7F), (0xD85, 0xD96), (0xD9A, 0xDB1), (0xDB3, 0xDBB),
  (0xDBD, 0xDBD), (0xDC0, 0xDC6), (0xDE6, 0xDEF), (0xE01, 0xE30),
  (0xE32, 0xE33), (0xE40, 0xE46), (0xE50, 0xE59), (0xE81, 0xE82),
  (0xE84, 0xE84), (0xE86, 0xE8A), (0xE8C, 0xEA3), (0xEA5, 0xEA5),
  (0xEA7, 0xEB0), (0xEB2, 0xEB3), (0xEBD, 0xEBD), (0xEC0, 0xEC4),
  (0xEC6, 0xEC6), (0xED0, 0xED9), (0xEDC, 0xEDF), (0xF00, 0xF00),
  (0xF20, 0xF33), (0xF40, 0xF47), (0xF49, 0xF6C), (0xF88, 0xF8C),
  (0x1000, 0x102A), (0x103F, 0x1049), (0x1050, 0x1055), (0x105A, 0x105D),
  (0x1061, 0x1061), (0x1065, 0x1066), (0x106E, 0x1070), (0x1075, 0x1081),
  (0x108E, 0x108E), (0x1090, 0x1099), (0x10A0, 0x10C5), (0x10C7, 0x10C7),
  (0x10CD, 0x10CD), (0x10D0, 0x10FA), (0x10FC, 0x1248), (0x124A, 0x124D),
  (0x1250, 0x1256), (0x1258, 0x1258), (0x125A, 0x125D), (0x1260, 0x1288),
  (0x128A, 0x128D), (0x1290, 0x12B0), (0x12B2, 0x12B5), (0x12B8, 0x12BE),
  (0x12C0, 0x12C0), (0x12C2, 0x12C5), (0x12C8, 0x12D6), (0x12D8, 0x1310),
  (0x1312, 0x1315), (0x1318, 0x135A), (0x1369, 0x137C), (0x1380, 0x138F),
  (0x13A0, 0x13F5), (0x13F8, 0x13FD), (0x1401, 0x166C), (0x166F, 0x167F),
  (0x1681, 0x169A), (0x16A0, 0x16EA), (0x16EE, 0x16F8), (0x1700, 0x1711),
  (0x171F, 0x1731), (0x1740, 0x1751), (0x1760, 0x176C), (0x176E, 0x1770),
  (0x1780, 0x17B3), (0x17D7, 0x17D7), (0x17DC, 0x17DC), (0x17E0, 0x17E9),
  (0x17F0, 0x17F9), (0x1810, 0x1819), (0x1820, 0x1878), (0x1880, 0x1884),
  (0x1887, 0x18A8), (0x18AA, 0x18AA), (0x18B0, 0x18F5), (0x1900, 0x191E),
  (0x1946, 0x196D), (0x1970, 0x1974), (0x1980, 0x19AB), (0x19B0, 0x19C9),
  (0x19D0, 0x19DA), (0x1A00, 0x1A16), (0x1A20, 0x1A54), (0x1A80, 0x1A89),
  (0x1A90, 0x1A99), (0x1AA7, 0x1AA7), (0x1B05, 0x1B33), (0x1B45, 0x1B4C),
  (0x1B50, 0x1B59), (0x1B83, 0x1BA0), (0x1BAE, 0x1BE5), (0x1C00, 0x1C23),
  (0x1C40, 0x1C49), (0x1C4D, 0x1C7D), (0x1C80, 0x1C88), (0x1C90, 0x1CBA),
  (0x1CBD, 0x1CBF), (0x1CE9, 0x1CEC), (0x1CEE, 0x1CF3), (0x1CF5, 0x1CF6),
  (0x1CFA, 0x1CFA), (0x1D00, 0x1DBF), (0x1E00, 0x1F15), (0x1F18, 0x1F1D),
  (0x1F20, 0x1F45), (0x1F48, 0x1F4D), (0x1F50, 0x1F57), (0x1F59, 0x1F59),
  (0x1F5B, 0x1F5B), (0x1F5D, 0x1F5D), (0x1F5F, 0x1F7D), (0x1F80, 0x1FB4),
  (0x1FB6, 0x1FBC), (0x1FBE, 0x1FBE), (0x1FC2, 0x1FC4), (0x1FC6, 0x1FCC),
  (0x1FD0, 0x1FD3), (0x1FD6, 0x1FDB), (0x1FE0, 0x1FEC), (0x1FF2, 0x1FF4),
  (0x1FF6, 0x1FFC), (0x2070, 0x2071), (0x2074, 0x2079), (0x207F, 0x2089),
  (0x2090, 0x209C), (0x2102, 0x2102), (0x2107, 0x2107), (0x210A, 0x2113),
  (0x2115, 0x2115), (0x2119, 0x211D), (0x2124, 0x2124), (0x2126, 0x2126),
  (0x2128, 0x2128), (0x212A, 0x212D), (0x212F, 0x2139), (0x213C, 0x213F),
  (0x2145, 0x2149), (0x214E, 0x214E), (0x2150, 0x2189), (0x2460, 0x249B),
  (0x24EA, 0x24FF), (0x2776, 0x2793), (0x2C00, 0x2CE4), (0x2CEB, 0x2CEE),
  (0x2CF2, 0x2CF3), (0x2CFD, 0x2CFD), (0x2D00, 0x2D25), (0x2D27, 0x2D27),
  (0x2D2D, 0x2D2D), (0x2D30, 0x2D67), (0x2D6F, 0x2D6F), (0x2D80, 0x2D96),
  (0x2DA0, 0x2DA6), (0x2DA8, 0x2DAE), (0x2DB0, 0x2DB6), (0x2DB8, 0x2DBE),
  (0x2DC0, 0x2DC6), (0x2DC8, 0x2DCE), (0x2DD0, 0x2DD6), (0x2DD8, 0x2DDE),
  (0x2E2F, 0x2E2F), (0x3005, 0x3007), (0x3021, 0x3029), (0x3031, 0x3035),
  (0x3038, 0x303C), (0x3041, 0x3096), (0x309D, 0x309F), (0x30A1, 0x30FA),
  (0x30FC, 0x30FF), (0x3105, 0x312F), (0x3131, 0x318E), (0x3192, 0x3195),
  (0x31A0, 0x31BF), (0x31F0, 0x31FF), (0x3220, 0x3229), (0x3248, 0x324F),
  (0x3251, 0x325F), (0x3280, 0x3289), (0x32B1, 0x32BF), (0x3400, 0x4DBF),
  (0x4E00, 0xA48C), (0xA4D0, 0xA4FD), (0xA500, 0xA60C), (0xA610, 0xA62B),
  (0xA640, 0xA66E), (0xA67F, 0xA69D), (0xA6A0, 0xA6EF), (0xA717, 0xA71F),
  (0xA722, 0xA788), (0xA78B, 0xA7CA), (0xA7D0, 0xA7D1), (0xA7D3, 0xA7D3),
  (0xA7D5, 0xA7D9), (0xA7F2, 0xA801), (0xA803, 0xA805), (0xA807, 0xA80A),
  (0xA80C, 0xA822), (0xA830, 0xA835), (0xA840, 0xA873), (0xA882, 0xA8B3),
  (0xA8D0, 0xA8D9), (0xA8F2, 0xA8F7), (0xA8FB, 0xA8FB), (0xA8FD, 0xA8FE),
  (0xA900, 0xA925), (0xA930, 0xA946), (0xA960, 0xA97C), (0xA984, 0xA9B2),
  (0xA9CF, 0xA9D9), (0xA9E0, 0xA9E4), (0xA9E6, 0xA9FE), (0xAA00, 0xAA28),
  (0xAA40, 0xAA42), (0xAA44, 0xAA4B), (0xAA50, 0xAA59), (0xAA60, 0xAA76),
  (0xAA7A, 0xAA7A), (0xAA7E, 0xAAAF), (0xAAB1, 0xAAB1), (0xAAB5, 0xAAB6),
  (0xAAB9, 0xAABD), (0xAAC0, 0xAAC0), (0xAAC2, 0xAAC2), (0xAADB, 0xAADD),
  (0xAAE0, 0xAAEA), (0xAAF2, 0xAAF4), (0xAB01, 0xAB06), (0xAB09, 0xAB0E),
  (0xAB11, 0xAB16), (0xAB20, 0xAB26), (0xAB28, 0xAB2E), (0xAB30, 0xAB5A),
  (0xAB5C, 0xAB69), (0xAB70, 0xABE2), (0xABF0, 0xABF9), (0xAC00, 0xD7A3),
  (0xD7B0, 0xD7C6), (0xD7CB, 0xD7FB), (0xF900, 0xFA6D), (0xFA70, 0xFAD9),
  (0xFB00, 0xFB06), (0xFB13, 0xFB17), (0xFB1D, 0xFB1D), (0xFB1F, 0xFB28),
  (0xFB2A, 0xFB36), (0xFB38, 0xFB3C), (0xFB3E, 0xFB3E), (0xFB40, 0xFB41),
  (0xFB43, 0xFB44), (0xFB46, 0xFBB1), (0xFBD3, 0xFD3D), (0xFD50, 0xFD8F),
  (0xFD92, 0xFDC7), (0xFDF0, 0xFDFB), (0xFE70, 0xFE74), (0xFE76, 0xFEFC),
  (0xFF10, 0xFF19), (0xFF21, 0xFF3A), (0xFF41, 0xFF5A), (0xFF66, 0xFFBE),
  (0xFFC2, 0xFFC7), (0xFFCA, 0xFFCF), (0xFFD2, 0xFFD7), (0xFFDA, 0xFFDC),
  (0x10000, 0x1000B), (0x1000D, 0x10026), (0x10028, 0x1003A), (0x1003C, 0x1003D),
  (0x1003F, 0x1004D), (0x10050, 0x1005D), (0x10080, 0x100FA), (0x10107, 0x10133),
  (0x10140, 0x10178), (0x1018A, 0x1018B), (0x10280, 0x1029C), (0x102A0, 0x102D0),
  (0x102E1, 0x102FB), (0x10300, 0x10323), (0x1032D, 0x1034A), (0x10350, 0x10375),
  (0x10380, 0x1039D), (0x103A0, 0x103C3), (0x103C8, 0x103CF), (0x103D1, 0x103D5),
  (0x10400, 0x1049D), (0x104A0, 0x104A9), (0x104B0, 0x104D3), (0x104D8, 0x104FB),
  (0x10500, 0x10527), (0x10530, 0x10563), (0x10570, 0x1057A), (0x1057C, 0x1058A),
  (0x1058C, 0x10592), (0x10594, 0x10595), (0x10597, 0x105A1), (0x105A3, 0x105B1),
  (0x105B3, 0x105B9), (0x105BB, 0x105BC), (0x10600, 0x10736), (0x10740, 0x10755),
  (0x10760, 0x10767), (0x10780, 0x10785), (0x10787, 0x107B0), (0x107B2, 0x107BA),
  (0x10800, 0x10805), (0x10808, 0x10808), (0x1080A, 0x10835), (0x10837, 0x10838),
  (0x1083C, 0x1083C), (0x1083F, 0x10855), (0x10858, 0x10876), (0x10879, 0x1089E),
  (0x108A7, 0x108AF), (0x108E0, 0x108F2), (0x108F4, 0x108F5), (0x108FB, 0x1091B),
  (0x10920, 0x10939), (0x10980, 0x109B7), (0x109BC, 0x109CF), (0x109D2, 0x10A00),
  (0x10A10, 0x10A13), (0x10A15, 0x10A17), (0x10A19, 0x10A35), (0x10A40, 0x10A48),
  (0x10A60, 0x10A7E), (0x10A80, 0x10A9F), (0x10AC0, 0x10AC7), (0x10AC9, 0x10AE4),
  (0x10AEB, 0x10AEF), (0x10B00, 0x10B35), (0x10B40, 0x10B55), (0x10B58, 0x10B72),
  (0x10B78, 0x10B91), (0x10BA9, 0x10BAF), (0x10C00, 0x10C48), (0x10C80, 0x10CB2),
  (0x10CC0, 0x10CF2), (0x10CFA, 0x10D23), (0x10D30, 0x10D39), (0x10E60, 0x10E7E),
  (0x10E80, 0x10EA9), (0x10EB0, 0x10EB1), (0x10F00, 0x10F27), (0x10F30, 0x10F45),
  (0x10F51, 0x10F54), (0x10F70, 0x10F81), (0x10FB0, 0x10FCB), (0x10FE0, 0x10FF6),
  (0x11003, 0x11037), (0x11052, 0x1106F), (0x11071, 0x11072), (0x11075, 0x11075),
  (0x11083, 0x110AF), (0x110D0, 0x110E8), (0x110F0, 0x110F9), (0x11103, 0x11126),
  (0x11136, 0x1113F), (0x11144, 0x11144), (0x11147, 0x11147), (0x11150, 0x11172),
  (0x11176, 0x11176), (0x11183, 0x111B2), (0x111C1, 0x111C4), (0x111D0, 0x111DA),
  (0x111DC, 0x111DC), (0x111E1, 0x111F4), (0x11200, 0x11211), (0x11213, 0x1122B),
  (0x11280, 0x11286), (0x11288, 0x11288), (0x1128A, 0x1128D), (0x1128F, 0x1129D),
  (0x1129F, 0x112A8), (0x112B0, 0x112DE), (0x112F0, 0x112F9), (0x11305, 0x1130C),
  (0x1130F, 0x11310), (0x11313, 0x11328), (0x1132A, 0x11330), (0x11332, 0x11333),
  (0x11335, 0x11339), (0x1133D, 0x1133D), (0x11350, 0x11350), (0x1135D, 0x11361),
  (0x11400, 0x11434), (0x11447, 0x1144A), (0x11450, 0x11459), (0x1145F, 0x11461),
  (0x11480, 0x114AF), (0x114C4, 0x114C5), (0x114C7, 0x114C7), (0x114D0, 0x114D9),
  (0x11580, 0x115AE), (0x115D8, 0x115DB), (0x11600, 0x1162F), (0x11644, 0x11644),
  (0x11650, 0x11659), (0x11680, 0x116AA), (0x116B8, 0x116B8), (0x116C0, 0x116C9),
  (0x11700, 0x1171A), (0x11730, 0x1173B), (0x11740, 0x11746), (0x11800, 0x1182B),
  (0x118A0, 0x118F2), (0x118FF, 0x11906), (0x11909, 0x11909), (0x1190C, 0x11913),
  (0x11915, 0x11916), (0x11918, 0x1192F), (0x1193F, 0x1193F), (0x11941, 0x11941),
  (0x11950, 0x11959), (0x119A0, 0x119A7), (0x119AA, 0x119D0), (0x119E1, 0x119E1),
  (0x119E3, 0x119E3), (0x11A00, 0x11A00), (0x11A0B, 0x11A32), (0x11A3A, 0x11A3A),
  (0x11A50, 0x11A50), (0x11A5C, 0x11A89), (0x11A9D, 0x11A9D), (0x11AB0, 0x11AF8),
  (0x11C00, 0x11C08), (0x11C0A, 0x11C2E), (0x11C40, 0x11C40), (0x11C50, 0x11C6C),
  (0x11C72, 0x11C8F), (0x11D00, 0x11D06), (0x11D08, 0x11D09), (0x11D0B, 0x11D30),
  (0x11D46, 0x11D46), (0x11D50, 0x11D59), (0x11D60, 0x11D65), (0x11D67, 0x11D68),
  (0x11D6A, 0x11D89), (0x11D98, 0x11D98), (0x11DA0, 0x11DA9), (0x11EE0, 0x11EF2),
  (0x11FB0, 0x11FB0), (0x11FC0, 0x11FD4), (0x12000, 0x12399), (0x12400, 0x1246E),
  (0x12480, 0x12543), (0x12F90, 0x12FF0), (0x13000, 0x1342E), (0x14400, 0x14646),
  (0x16800, 0x16A38), (0x16A40, 0x16A5E), (0x16A60, 0x16A69), (0x16A70, 0x16ABE),
  (0x16AC0, 0x16AC9), (0x16AD0, 0x16AED), (0x16B00, 0x16B2F), (0x16B40, 0x16B43),
  (0x16B50, 0x16B59), (0x16B5B, 0x16B61), (0x16B63, 0x16B77), (0x16B7D, 0x16B8F),
  (0x16E40, 0x16E96), (0x16F00, 0x16F4A), (0x16F50, 0x16F50), (0x16F93, 0x16F9F),
  (0x16FE0, 0x16FE1), (0x16FE3, 0x16FE3), (0x17000, 0x187F7), (0x18800, 0x18CD5),
  (0x18D00, 0x18D08), (0x1AFF0, 0x1AFF3), (0x1AFF5, 0x1AFFB), (0x1AFFD, 0x1AFFE),
  (0x1B000, 0x1B122), (0x1B150, 0x1B152), (0x1B164, 0x1B167), (0x1B170, 0x1B2FB),
  (0x1BC00, 0x1BC6A), (0x1BC70, 0x1BC7C), (0x1BC80, 0x1BC88), (0x1BC90, 0x1BC99),
  (0x1D2E0, 0x1D2F3), (0x1D360, 0x1D378), (0x1D400, 0x1D454), (0x1D456, 0x1D49C),
  (0x1D49E, 0x1D49F), (0x1D4A2, 0x1D4A2), (0x1D4A5, 0x1D4A6), (0x1D4A9, 0x1D4AC),
  (0x1D4AE, 0x1D4B9), (0x1D4BB, 0x1D4BB), (0x1D4BD, 0x1D4C3), (0x1D4C5, 0x1D505),
  (0x1D507, 0x1D50A), (0x1D50D, 0x1D514), (0x1D516, 0x1D51C), (0x1D51E, 0x1D539),
  (0x1D53B, 0x1D53E), (0x1D540, 0x1D544), (0x1D546, 0x1D546), (0x1D54A, 0x1D550),
  (0x1D552, 0x1D6A5), (0x1D6A8, 0x1D6C0), (0x1D6C2, 0x1D6DA), (0x1D6DC, 0x1D6FA),
  (0x1D6FC, 0x1D714), (0x1D716, 0x1D734), (0x1D736, 0x1D74E), (0x1D750, 0x1D76E),
  (0x1D770, 0x1D788), (0x1D78A, 0x1D7A8), (0x1D7AA, 0x1D7C2), (0x1D7C4, 0x1D7CB),
  (0x1D7CE, 0x1D7FF), (0x1DF00, 0x1DF1E), (0x1E100, 0x1E12C), (0x1E137, 0x1E13D),
  (0x1E140, 0x1E149), (0x1E14E, 0x1E14E), (0x1E290, 0x1E2AD), (0x1E2C0, 0x1E2EB),
  (0x1E2F0, 0x1E2F9), (0x1E7E0, 0x1E7E6), (0x1E7E8, 0x1E7EB), (0x1E7ED, 0x1E7EE),
  (0x1E7F0, 0x1E7FE), (0x1E800, 0x1E8C4), (0x1E8C7, 0x1E8CF), (0x1E900, 0x1E943),
  (0x1E94B, 0x1E94B), (0x1E950, 0x1E959), (0x1EC71, 0x1ECAB), (0x1ECAD, 0x1ECAF),
  (0x1ECB1, 0x1ECB4), (0x1ED01, 0x1ED2D), (0x1ED2F, 0x1ED3D), (0x1EE00, 0x1EE03),
  (0x1EE05, 0x1EE1F), (0x1EE21, 0x1EE22), (0x1EE24, 0x1EE24), (0x1EE27, 0x1EE27),
  (0x1EE29, 0x1EE32), (0x1EE34, 0x1EE37), (0x1EE39, 0x1EE39), (0x1EE3B, 0x1EE3B),
  (0x1EE42, 0x1EE42), (0x1EE47, 0x1EE47), (0x1EE49, 0x1EE49), (0x1EE4B, 0x1EE4B),
  (0x1EE4D, 0x1EE4F), (0x1EE51, 0x1EE52), (0x1EE54, 0x1EE54), (0x1EE57, 0x1EE57),
  (0x1EE59, 0x1EE59), (0x1EE5B, 0x1EE5B), (0x1EE5D, 0x1EE5D), (0x1EE5F, 0x1EE5F),
  (0x1EE61, 0x1EE62), (0x1EE64, 0x1EE64), (0x1EE67, 0x1EE6A), (0x1EE6C, 0x1EE72),
  (0x1EE74, 0x1EE77), (0x1EE79, 0x1EE7C), (0x1EE7E, 0x1EE7E), (0x1EE80, 0x1EE89),
  (0x1EE8B, 0x1EE9B), (0x1EEA1, 0x1EEA3), (0x1EEA5, 0x1EEA9), (0x1EEAB, 0x1EEBB),
  (0x1F100, 0x1F10C), (0x1FBF0, 0x1FBF9), (0x20000, 0x2A6DF), (0x2A700, 0x2B738),
  (0x2B740, 0x2B81D), (0x2B820, 0x2CEA1), (0x2CEB0, 0x2EBE0), (0x2F800, 0x2FA1D),
  (0x30000, 0x3134A)]

/-- Rust `char::is_alphanumeric`: the derived Unicode property Alphabetic, or
one of the number categories Nd, Nl, No.  `alnumRanges` is exactly the letter
and number general categories of Unicode 14.0.0, which form a subset of the
Rust predicate: the only code points Rust additionally accepts are the
Other_Alphabetic part of the derived Alphabetic property (combining marks and
a few symbols, all of which lie above U+00FF).  Hence a `true` of this model
is a `true` of Rust for every character, and below U+0100 the model agrees
with Rust exactly; the theorems below rely only on these two facts — name
characters enter hypotheses positively, and negative (boundary) hypotheses
are restricted to code points below U+0100. -/
def rustIsAlphanumeric (c : Char) : Bool :=
  alnumRanges.any fun r => r.1 ≤ c.toNat && c.toNat ≤ r.2

/-- The character class consumed after `$`:
`ch.is_alphanumeric() || ch == '_'`. -/
def isVarNameChar (c : Char) : Bool := rustIsAlphanumeric c || c == '_'

/-- `Builtins::get_var_value`: custom env first, then the first entry of
`get_allowed_env_vars` whose name matches and whose value is not redacted;
otherwise the empty string. -/
def getVarValue (pm : PermissionManager) (custom : List (Str × Str))
    (osEnv : List (Str × Str)) (name : Str) : Str :=
  match custom.lookup name with
  | some v => v
  | none =>
    match (getAllowedEnvVars pm osEnv).find?
        (fun kv => kv.1 == name && !("[REDACTED".data.isPrefixOf kv.2)) with
    | some kv => kv.2
    | none => []

/-- Scanner state of `Builtins::expand_variables`: plain text, inside a
`${NAME}` reference (accumulated name reversed), or inside a `$NAME` reference
(accumulated name reversed). -/
inductive ExpandMode where
  | text
  | dollarBrace (revName : Str)
  | dollarName (revName : Str)

/-- The character loop of `Builtins::expand_variables`.  In the Rust loop a
non-name boundary character is left unconsumed by the inner `peek` loop and is
then handled by the next iteration of the outer loop; here that re-dispatch on
the boundary character is inlined into the `dollarName` arms (a `$` boundary
starts the next reference, any other boundary character is emitted
literally). -/
def expandAux (pm : PermissionManager) (custom : List (Str × Str))
    (osEnv : List (Str × Str)) : Str → ExpandMode → Str
  | [], .text => []
  | [], .dollarBrace revName => getVarValue pm custom osEnv revName.reverse
  | [], .dollarName revName => getVarValue pm custom osEnv revName.reverse
  | c :: r, .text =>
    if c = '$' then
      match r with
      | [] => expandAux pm custom osEnv [] (.dollarName [])
      | c2 :: r2 =>
        if c2 = '{' then expandAux pm custom osEnv r2 (.dollarBrace [])
        else expandAux pm custom osEnv (c2 :: r2) (.dollarName [])
    else c :: expandAux pm custom osEnv r .text
  | c :: r, .dollarBrace revName =>
    if c = '}' then
      getVarValue pm custom osEnv revName.reverse
        ++ expandAux pm custom osEnv r .text
    else expandAux pm custom osEnv r (.dollarBrace (c :: revName))
  | c :: r, .dollarName revName =>
    if c = '$' then
      getVarValue pm custom osEnv revName.reverse
        ++ (match r with
            | [] => expandAux pm custom osEnv [] (.dollarName [])
            | c2 :: r2 =>
              if c2 = '{' then expandAux pm custom osEnv r2 (.dollarBrace [])
              else expandAux pm custom osEnv (c2 :: r2) (.dollarName []))
    else if isVarNameChar c then
      expandAux pm custom osEnv r (.dollarName (c :: revName))
    else
      getVarValue pm custom osEnv revName.reverse
        ++ c :: expandAux pm custom osEnv r .text

/-- `Builtins::expand_variables`. -/
def expandVariables (pm : PermissionManager) (custom : List (Str × Str))
    (osEnv : List (Str × Str)) (s : Str) : Str :=
  expandAux pm custom osEnv s .text

/-! ### Config (`src/config.rs`) -/

/-- `src/config.rs`: `struct Config` (the three fields used by the core). -/
structure Config where
  interactive_commands : List Str
  additional_allowed_paths : List Str
  denied_paths : List Str
deriving DecidableEq, Repr

/-- `Config::default` (the seeded lists). -/
def Config.default : Config :=
  { interactive_commands :=
      ["claude".data, "ollama".data, "vim".data, "nvim".data, "nano".data,
       "emacs".data, "less".data, "more".data, "top".data, "htop".data,
       "man".data, "python".data, "node".data, "irb".data, "ssh".data,
       "bash".data, "sh".data, "git".data, "kubectl".data]
    additional_allowed_paths :=
      ["~/.claude".data, "~/.claude.json".data, "~/.nvm".data, "~/.npm".data,
       "/dev/null".data, "~/.cargo".data, "~/.local/bin".data,
       "~/.rustup".data]
    denied_paths := [] }

/-- `src/config.rs`: `MAX_HISTORY_SIZE`. -/
def MAX_HISTORY_SIZE : Nat := 1000

/-! ### Builtins::execute -/

/-- `Builtins::execute`.  `format!` interpolations become concatenations; the
`HashMap` of custom variables is an association list, and the `sort_by_key`
over its entries is the stable sort on names. -/
def builtinExecute (b : BuiltinCommand) (pm : PermissionManager)
    (custom : List (Str × Str)) (osEnv : List (Str × Str)) (cfg : Config) :
    List Str :=
  match b with
  | .Exit => []
  | .Clear => []
  | .Help =>
    ["dshell - A Secure Shell written in Rust".data, [],
     "Built-in commands:".data,
     "  exit, quit       - Exit the shell".data,
     "  clear, cls       - Clear the screen".data,
     "  help             - Show this help message".data,
     "  env              - List environment variables (respects permissions)".data,
     "  export KEY=VALUE - Set environment variable".data,
     "  echo [args]      - Echo arguments (supports $VAR expansion)".data, [],
     "Security commands:".data,
     "  allow <VAR>           - Allow access to specific env variable".data,
     "  allow                 - Allow access to all env variables".data,
     "  deny <VAR>            - Deny access to specific env variable".data,
     "  deny                  - Deny access to all env variables".data,
     "  allowpath <PATH>      - Allow filesystem access to specific path".data,
     "  denypath <PATH>       - Deny filesystem access to specific path".data,
     "  listallowpath         - List all allowed filesystem paths".data,
     "  security, status      - Show current security status".data, [],
     "All other commands are executed as external programs.".data]
  | .Env =>
    let env_vars := getAllowedEnvVars pm osEnv
    ["Environment Variables:".data, []]
    ++ env_vars.map (fun kv => kv.1 ++ "=".data ++ kv.2)
    ++ (if custom = [] then [] else
        [[], "Custom Environment Variables:".data, []]
        ++ (List.insertionSort envPairLe custom).map
            (fun kv => kv.1 ++ "=".data ++ kv.2))
    ++ [[], "Showing: ".data ++ natStr env_vars.length ++ " system + ".data
        ++ natStr custom.length ++ " custom = ".data
        ++ natStr (env_vars.length + custom.length)
        ++ " total environment variables".data]
  | .SecurityStatus => getStatus pm
  | .Allow v => ["PERMISSION_CHANGE:ALLOW:".data ++ v]
  | .Deny v => ["PERMISSION_CHANGE:DENY:".data ++ v]
  | .AllowAll => ["PERMISSION_CHANGE:ALLOW_ALL".data]
  | .DenyAll => ["PERMISSION_CHANGE:DENY_ALL".data]
  | .Export k v => ["ENV_SET:".data ++ k ++ "=".data ++ v]
  | .Echo args =>
    [List.intercalate " ".data (args.map (expandVariables pm custom osEnv))]
  | .AllowPathCmd p => ["PERMISSION_CHANGE:ALLOW_PATH:".data ++ p]
  | .DenyPathCmd p => ["PERMISSION_CHANGE:DENY_PATH:".data ++ p]
  | .ListAllowedPaths =>
    ["Allowed Filesystem Paths:".data, [], "From config file:".data]
    ++ (if cfg.additional_allowed_paths = [] then ["  (none)".data]
        else cfg.additional_allowed_paths.map (fun p => "  ✓ ".data ++ p))
    ++ [[], "Dynamically added (via allowpath command):".data]
    ++ (if listAllowedPaths pm = [] then ["  (none)".data]
        else (listAllowedPaths pm).map (fun p => "  ✓ ".data ++ p))
    ++ [[], "Total: ".data
        ++ natStr (cfg.additional_allowed_paths.length
            + (listAllowedPaths pm).length)
        ++ " allowed path(s) (".data
        ++ natStr cfg.additional_allowed_paths.length
        ++ " from config + ".data
        ++ natStr (listAllowedPaths pm).length ++ " dynamic)".data]

/-! ### Dispatcher (`src/shell/mod.rs`) and executor (`src/shell/executor.rs`) -/

/-- `src/shell/executor.rs`: `enum ExecutionMode`. -/
inductive ExecutionMode where
  | Captured
  | Interactive
deriving DecidableEq, Repr

/-- `Executor::execution_mode`: literal membership of the command token in
`config.interactive_commands`. -/
def executionMode (cmd : ParsedCommand) (cfg : Config) : ExecutionMode :=
  if cfg.interactive_commands.contains cmd.command then .Interactive
  else .Captured

/-- `src/shell/mod.rs`: `enum CommandAction`. -/
inductive CommandAction where
  | Exit
  | ClearScreen
  | ExecuteInteractive (cmd : ParsedCommand)
  | ExecuteCaptured (cmd : ParsedCommand)
  | ShowOutput (lines : List Str)
  | AllowEnvVar (v : Str)
  | DenyEnvVar (v : Str)
  | AllowAllEnvVars
  | DenyAllEnvVars
  | SetEnvVar (k v : Str)
  | AllowPath (p : Str)
  | DenyPath (p : Str)
deriving DecidableEq, Repr

/-- Outcome of `Shell::process_input` (propagating the possible `export`
panic). -/
inductive ProcessOutcome where
  | panics
  | noAction
  | action (a : CommandAction)
deriving DecidableEq, Repr

/-- `Shell::process_input`. -/
def processInput (input : Str) (pm : PermissionManager)
    (custom : List (Str × Str)) (cfg : Config) (osEnv : List (Str × Str)) :
    ProcessOutcome :=
  match ParsedCommand.parse input with
  | none => .noAction
  | some cmd =>
    match builtinParse cmd with
    | .panics => .panics
    | .builtin b =>
      .action <|
        match b with
        | .Exit => .Exit
        | .Clear => .ClearScreen
        | .Help => .ShowOutput (builtinExecute .Help pm custom osEnv cfg)
        | .Env => .ShowOutput (builtinExecute .Env pm custom osEnv cfg)
        | .SecurityStatus =>
          .ShowOutput (builtinExecute .SecurityStatus pm custom osEnv cfg)
        | .Echo args =>
          .ShowOutput (builtinExecute (.Echo args) pm custom osEnv cfg)
        | .ListAllowedPaths =>
          .ShowOutput (builtinExecute .ListAllowedPaths pm custom osEnv cfg)
        | .Allow v => .AllowEnvVar v
        | .Deny v => .DenyEnvVar v
        | .AllowAll => .AllowAllEnvVars
        | .DenyAll => .DenyAllEnvVars
        | .Export k v => .SetEnvVar k v
        | .AllowPathCmd p => .AllowPath p
        | .DenyPathCmd p => .DenyPath p
    | .notBuiltin =>
      match executionMode cmd cfg with
      | .Interactive => .action (.ExecuteInteractive cmd)
      | .Captured => .action (.ExecuteCaptured cmd)

/-- The child environment constructed by `Executor::execute_captured`:
`env_clear()`, then one `command.env(k, v)` per entry of `custom_env`, then one
per entry of `get_allowed_env_vars()` whose value does not start with
`"[REDACTED"` and whose key is not a key of `custom_env`.  The environment is
modelled as the list of inserted pairs in insertion order (the guard makes the
two parts key-disjoint, so insertion never overwrites across parts). -/
def buildCapturedEnv (pm : PermissionManager) (custom : List (Str × Str))
    (osEnv : List (Str × Str)) : List (Str × Str) :=
  custom ++ (getAllowedEnvVars pm osEnv).filter fun kv =>
    !("[REDACTED".data.isPrefixOf kv.2) && !((custom.map Prod.fst).contains kv.1)

/-! ### Line editor history (`src/terminal/input.rs`) -/

/-- `src/terminal/input.rs`: `struct InputEditor`. -/
structure InputEditor where
  buffer : Str
  cursor_pos : Nat
  history : List Str
  history_index : Option Nat
  saved_buffer : Option Str
deriving DecidableEq, Repr

/-- `InputEditor::new`. -/
def InputEditor.new : InputEditor :=
  { buffer := [], cursor_pos := 0, history := [], history_index := none
    saved_buffer := none }

/-- `InputEditor::add_to_history`: ignore empty commands, skip consecutive
duplicates, push, and drop the oldest entry when the 1000-entry cap is
exceeded. -/
def addToHistory (ed : InputEditor) (command : Str) : InputEditor :=
  if command.isEmpty then ed
  else if ed.history.getLast? = some command then ed
  else
    let h := ed.history ++ [command]
    if h.length > MAX_HISTORY_SIZE then { ed with history := h.drop 1 }
    else { ed with history := h }

/-! ### Permission-mutating command sequences (driver loop of `src/main.rs`) -/

/-- A permission-mutating call performed by the driver loop in response to a
builtin action: `allow_env_var`, `deny_env_var`, `set_env_access`,
`allow_path`, `deny_path`.  The path calls carry the value of `HOME` observed
at call time. -/
inductive PermOp where
  | allowEnv (v : Str)
  | denyEnv (v : Str)
  | setAccess (p : Permission)
  | allowP (path : Str) (home : Option Str)
  | denyP (path : Str) (home : Option Str)

/-- Apply one permission-mutating call. -/
def applyOp (pm : PermissionManager) : PermOp → PermissionManager
  | .allowEnv v => allowEnvVar pm v
  | .denyEnv v => denyEnvVar pm v
  | .setAccess p => setEnvAccess pm p
  | .allowP path home => allowPath pm home path
  | .denyP path home => denyPath pm home path

/-- Apply a finite sequence of permission-mutating calls to the initial
state. -/
def applyOps (ops : List PermOp) : PermissionManager :=
  ops.foldl applyOp PermissionManager.new

end DShell

namespace DShell

/-! ## Helper lemmas -/

/-- An entry of `get_allowed_env_vars` is either an OS pair whose name checks
`Allowed`, or a redaction of an OS name that checks `AskEveryTime`. -/
theorem mem_getAllowedEnvVars (pm : PermissionManager)
    (osEnv : List (Str × Str)) (k v : Str) :
    (k, v) ∈ getAllowedEnvVars pm osEnv ↔
      (checkEnvVar pm k = .Allowed ∧ (k, v) ∈ osEnv)
      ∨ (checkEnvVar pm k = .AskEveryTime ∧ v = redactedValue
          ∧ k ∈ osEnv.map Prod.fst) := by
  unfold getAllowedEnvVars
  rw [(List.perm_insertionSort envPairLe _).mem_iff, List.mem_filterMap]
  constructor
  · rintro ⟨⟨k0, v0⟩, hmem, hstep⟩
    rcases hc : checkEnvVar pm k0 with _ | _ | _ <;> simp [hc] at hstep
    · rcases hstep with ⟨rfl, rfl⟩
      exact Or.inl ⟨hc, hmem⟩
    · rcases hstep with ⟨rfl, rfl⟩
      exact Or.inr ⟨hc, rfl, List.mem_map.mpr ⟨(k0, v0), hmem, rfl⟩⟩
  · rintro (⟨hc, hmem⟩ | ⟨hc, rfl, hk⟩)
    · exact ⟨(k, v), hmem, by simp [hc]⟩
    · obtain ⟨⟨k0, v0⟩, hmem, hfst⟩ := List.mem_map.mp hk
      dsimp at hfst
      subst hfst
      exact ⟨(k0, v0), hmem, by simp [hc]⟩

/-! ## C2 -/

/-- C2: `check_env_var` returns `Denied` for every name in `env_deny`
regardless of the global policy and of `env_allow` membership; otherwise
`Allowed` for names in `env_allow`; otherwise the current `env_policy`. -/
theorem c2_check_env_var (pm : PermissionManager) (v : Str) :
    (v ∈ pm.denied_env_vars → checkEnvVar pm v = .Denied)
    ∧ (v ∉ pm.denied_env_vars → v ∈ pm.allowed_env_vars →
        checkEnvVar pm v = .Allowed)
    ∧ (v ∉ pm.denied_env_vars → v ∉ pm.allowed_env_vars →
        checkEnvVar pm v = pm.env_access_permission) := by
  refine ⟨fun h => ?_, fun h1 h2 => ?_, fun h1 h2 => ?_⟩ <;>
    simp [checkEnvVar, *]

/-- C2 witness: a denied name checks `Denied` even under the `Allowed` global
policy. -/
theorem c2_check_env_var_witness :
    checkEnvVar (denyEnvVar (setEnvAccess .new .Allowed) "SECRET".data)
      "SECRET".data = .Denied :=
  (c2_check_env_var (denyEnvVar (setEnvAccess .new .Allowed) "SECRET".data)
    "SECRET".data).1 (by decide)

/-! ## C4 -/

/-- C4: `get_allowed_env_vars` is sorted ascending by name; each OS pair is
emitted as-is when `Allowed`, skipped when `Denied`, and emitted with the
redaction placeholder when `AskEveryTime`; no `Denied` name appears. -/
theorem c4_get_allowed_env_vars (pm : PermissionManager)
    (osEnv : List (Str × Str)) :
    List.Sorted envPairLe (getAllowedEnvVars pm osEnv)
    ∧ (∀ k v, (k, v) ∈ getAllowedEnvVars pm osEnv ↔
        (checkEnvVar pm k = .Allowed ∧ (k, v) ∈ osEnv)
        ∨ (checkEnvVar pm k = .AskEveryTime ∧ v = redactedValue
            ∧ k ∈ osEnv.map Prod.fst))
    ∧ (∀ kv ∈ getAllowedEnvVars pm osEnv, checkEnvVar pm kv.1 ≠ .Denied) := by
  refine ⟨List.sorted_insertionSort envPairLe _,
    fun k v => mem_getAllowedEnvVars pm osEnv k v, fun kv hkv => ?_⟩
  obtain ⟨k, v⟩ := kv
  rcases (mem_getAllowedEnvVars pm osEnv k v).mp hkv with ⟨hc, _⟩ | ⟨hc, _, _⟩ <;>
    simp [hc]

/-- C4 witness: at a concrete state and environment, a present name is not
`Denied`. -/
theorem c4_get_allowed_env_vars_witness :
    checkEnvVar PermissionManager.new ("PATH".data, "p".data).1 ≠ .Denied :=
  (c4_get_allowed_env_vars PermissionManager.new
      [("PATH".data, "p".data)]).2.2 ("PATH".data, "p".data) (by decide)

/-! ## C1 -/

/-- An entry of the captured-mode child environment comes either from the
custom env or from a non-redacted, non-shadowed `Allowed` OS pair. -/
theorem mem_buildCapturedEnv (pm : PermissionManager)
    (custom : List (Str × Str)) (osEnv : List (Str × Str)) (kv : Str × Str) :
    kv ∈ buildCapturedEnv pm custom osEnv ↔
      kv ∈ custom
      ∨ (kv ∈ osEnv ∧ checkEnvVar pm kv.1 = .Allowed
          ∧ "[REDACTED".data.isPrefixOf kv.2 = false
          ∧ kv.1 ∉ custom.map Prod.fst) := by
  obtain ⟨k, v⟩ := kv
  unfold buildCapturedEnv
  rw [List.mem_append, List.mem_filter]
  constructor
  · rintro (hcu | ⟨hg, hcond⟩)
    · exact Or.inl hcu
    · simp only [Bool.and_eq_true, Bool.not_eq_true'] at hcond
      rcases (mem_getAllowedEnvVars pm osEnv k v).mp hg with
        ⟨hc, hmem⟩ | ⟨_, rfl, _⟩
      · refine Or.inr ⟨hmem, hc, hcond.1, ?_⟩
        have := hcond.2
        simpa using this
      · exact absurd hcond.1 (by decide)
  · rintro (hcu | ⟨hmem, hc, hred, hkey⟩)
    · exact Or.inl hcu
    · refine Or.inr ⟨(mem_getAllowedEnvVars pm osEnv k v).mpr
        (Or.inl ⟨hc, hmem⟩), ?_⟩
      simp only [Bool.and_eq_true, Bool.not_eq_true']
      exact ⟨hred, by simpa using hkey⟩

/-- C1 (amended): the captured-mode child environment is exactly the
custom-env entries followed by the non-redacted, non-shadowed entries of
`get_allowed_env_vars`; consequently a name with `check_env_var == Denied`
never enters from the OS environment — it can appear only as a key of
`custom_env`. -/
theorem c1_captured_env (pm : PermissionManager) (custom : List (Str × Str))
    (osEnv : List (Str × Str)) :
    (∀ kv : Str × Str, kv ∈ buildCapturedEnv pm custom osEnv ↔
        kv ∈ custom
        ∨ (kv ∈ osEnv ∧ checkEnvVar pm kv.1 = .Allowed
            ∧ "[REDACTED".data.isPrefixOf kv.2 = false
            ∧ kv.1 ∉ custom.map Prod.fst))
    ∧ (∀ v, checkEnvVar pm v = .Denied → v ∉ custom.map Prod.fst →
        v ∉ (buildCapturedEnv pm custom osEnv).map Prod.fst) := by
  refine ⟨mem_buildCapturedEnv pm custom osEnv, fun v hden hkey hv => ?_⟩
  obtain ⟨⟨k, v0⟩, hmem, hfst⟩ := List.mem_map.mp hv
  dsimp only at hfst
  subst hfst
  rcases (mem_buildCapturedEnv pm custom osEnv (k, v0)).mp hmem with
    hcu | ⟨_, hc, _, _⟩
  · exact hkey (List.mem_map.mpr ⟨(k, v0), hcu, rfl⟩)
  · dsimp only at hc
    rw [hden] at hc
    exact Permission.noConfusion hc

/-- C1 counterexample: with `SECRET` explicitly denied but present in
`custom_env`, the denied name does appear in the child environment, refuting
the claim that no `Denied` variable ever appears. -/
theorem c1_captured_env_counterexample :
    checkEnvVar (denyEnvVar .new "SECRET".data) "SECRET".data = .Denied
    ∧ "SECRET".data ∈ (buildCapturedEnv (denyEnvVar .new "SECRET".data)
        [("SECRET".data, "x".data)] []).map Prod.fst := by decide

/-- C1 witness: at a concrete denied name absent from `custom_env`, the child
environment omits it. -/
theorem c1_captured_env_witness :
    "SECRET".data ∉ (buildCapturedEnv (denyEnvVar .new "SECRET".data) []
        [("SECRET".data, "s".data)]).map Prod.fst :=
  (c1_captured_env (denyEnvVar .new "SECRET".data) []
      [("SECRET".data, "s".data)]).2 "SECRET".data (by decide) (by decide)

/-! ## C10 -/

/-- C10: `set_env_access` replaces only the global `env_policy`; all four sets
are unchanged.  After a global `deny`, a name still in `env_allow` (and, by the
exclusion invariant, not in `env_deny`) still checks `Allowed` and still
reaches the captured-mode child environment. -/
theorem c10_set_env_access_frame (pm : PermissionManager) (p : Permission) :
    (setEnvAccess pm p).allowed_env_vars = pm.allowed_env_vars
    ∧ (setEnvAccess pm p).denied_env_vars = pm.denied_env_vars
    ∧ (setEnvAccess pm p).allowed_paths = pm.allowed_paths
    ∧ (setEnvAccess pm p).denied_paths = pm.denied_paths
    ∧ (setEnvAccess pm p).env_access_permission = p
    ∧ (∀ v, v ∈ pm.allowed_env_vars → v ∉ pm.denied_env_vars →
        checkEnvVar (setEnvAccess pm .Denied) v = .Allowed)
    ∧ (∀ custom osEnv v val, v ∈ pm.allowed_env_vars →
        v ∉ pm.denied_env_vars → (v, val) ∈ osEnv →
        "[REDACTED".data.isPrefixOf val = false →
        v ∉ custom.map Prod.fst →
        (v, val) ∈ buildCapturedEnv (setEnvAccess pm .Denied) custom osEnv) := by
  refine ⟨rfl, rfl, rfl, rfl, rfl, fun v ha hd => ?_,
    fun custom osEnv v val ha hd hos hred hkey => ?_⟩
  · simp [checkEnvVar, setEnvAccess, ha, hd]
  · refine (mem_buildCapturedEnv (setEnvAccess pm .Denied) custom osEnv
      (v, val)).mpr (Or.inr ⟨hos, ?_, hred, hkey⟩)
    simp [checkEnvVar, setEnvAccess, ha, hd]

/-- C10 witness: after a global deny from the initial state, the seeded `HOME`
still checks `Allowed`. -/
theorem c10_set_env_access_frame_witness :
    checkEnvVar (setEnvAccess PermissionManager.new .Denied) "HOME".data
      = .Allowed :=
  (c10_set_env_access_frame PermissionManager.new .Denied).2.2.2.2.2.1
    "HOME".data (by decide) (by decide)

/-! ## C3 -/

/-- C3: after any finite sequence of permission-mutating calls from the
initial state, no name is in both `env_allow` and `env_deny`, and no path is
in both `path_allow` and `path_deny`. -/
theorem c3_mutual_exclusion (ops : List PermOp) (v p : Str) :
    ¬ (v ∈ (applyOps ops).allowed_env_vars
        ∧ v ∈ (applyOps ops).denied_env_vars)
    ∧ ¬ (p ∈ (applyOps ops).allowed_paths
        ∧ p ∈ (applyOps ops).denied_paths) := by
  have main : ∀ (l : List PermOp) (pm : PermissionManager),
      ((∀ w, ¬(w ∈ pm.allowed_env_vars ∧ w ∈ pm.denied_env_vars))
        ∧ (∀ q, ¬(q ∈ pm.allowed_paths ∧ q ∈ pm.denied_paths))) →
      ((∀ w, ¬(w ∈ (l.foldl applyOp pm).allowed_env_vars
          ∧ w ∈ (l.foldl applyOp pm).denied_env_vars))
        ∧ (∀ q, ¬(q ∈ (l.foldl applyOp pm).allowed_paths
          ∧ q ∈ (l.foldl applyOp pm).denied_paths))) := by
    intro l
    induction l with
    | nil => intro pm h; simpa using h
    | cons op rest ih =>
      intro pm h
      rcases h with ⟨he, hp⟩
      refine ih (applyOp pm op) ?_
      cases op with
      | allowEnv v0 =>
        refine ⟨fun w ⟨ha, hd⟩ => ?_, fun q hq => hp q (by simpa [applyOp] using hq)⟩
        simp only [applyOp, allowEnvVar, Finset.mem_insert, Finset.mem_erase] at ha hd
        rcases ha with rfl | ha
        · exact hd.1 rfl
        · exact he w ⟨ha, hd.2⟩
      | denyEnv v0 =>
        refine ⟨fun w ⟨ha, hd⟩ => ?_, fun q hq => hp q (by simpa [applyOp] using hq)⟩
        simp only [applyOp, denyEnvVar, Finset.mem_insert, Finset.mem_erase] at ha hd
        rcases hd with rfl | hd
        · exact ha.1 rfl
        · exact he w ⟨ha.2, hd⟩
      | setAccess p0 =>
        exact ⟨fun w hw => he w (by simpa [applyOp, setEnvAccess] using hw),
          fun q hq => hp q (by simpa [applyOp, setEnvAccess] using hq)⟩
      | allowP path home =>
        refine ⟨fun w hw => he w (by simpa [applyOp, allowPath] using hw),
          fun q ⟨ha, hd⟩ => ?_⟩
        simp only [applyOp, allowPath, Finset.mem_insert, Finset.mem_erase] at ha hd
        rcases ha with rfl | ha
        · exact hd.1 rfl
        · exact hp q ⟨ha, hd.2⟩
      | denyP path home =>
        refine ⟨fun w hw => he w (by simpa [applyOp, denyPath] using hw),
          fun q ⟨ha, hd⟩ => ?_⟩
        simp only [applyOp, denyPath, Finset.mem_insert, Finset.mem_erase] at ha hd
        rcases hd with rfl | hd
        · exact ha.1 rfl
        · exact hp q ⟨ha.2, hd⟩
  have hinit : (∀ w, ¬(w ∈ PermissionManager.new.allowed_env_vars
        ∧ w ∈ PermissionManager.new.denied_env_vars))
      ∧ (∀ q, ¬(q ∈ PermissionManager.new.allowed_paths
        ∧ q ∈ PermissionManager.new.denied_paths)) := by
    constructor <;> intro x <;> simp [PermissionManager.new]
  exact ⟨(main ops PermissionManager.new hinit).1 v,
    (main ops PermissionManager.new hinit).2 p⟩

/-! ## C9 -/

/-- C9 (amended): a second identical `add_to_history` is always a no-op (so a
double add equals a single add); a single add of a nonempty command that is
not already last grows the history by exactly 1 while under the 1000-entry
cap; the length never exceeds 1000; and at the cap the oldest entry is
dropped.  The unrestricted claim fails for the empty command, for a command
equal to the current last entry, and at the cap. -/
theorem c9_history (ed : InputEditor) (c : Str) :
    addToHistory (addToHistory ed c) c = addToHistory ed c
    ∧ (c ≠ [] → ed.history.getLast? ≠ some c →
        ed.history.length < MAX_HISTORY_SIZE →
        (addToHistory ed c).history.length = ed.history.length + 1)
    ∧ (ed.history.length ≤ MAX_HISTORY_SIZE →
        (addToHistory ed c).history.length ≤ MAX_HISTORY_SIZE)
    ∧ (c ≠ [] → ed.history.getLast? ≠ some c →
        ed.history.length = MAX_HISTORY_SIZE →
        (addToHistory ed c).history = ed.history.drop 1 ++ [c]) := by
  by_cases hc : c = []
  · subst hc
    simp [addToHistory]
  · have hcE : c.isEmpty = false := by
      cases c with
      | nil => exact absurd rfl hc
      | cons a l => rfl
    by_cases hl : ed.history.getLast? = some c
    · refine ⟨?_, fun _ h2 => absurd hl h2, fun h => ?_, fun _ h2 => absurd hl h2⟩
      · simp [addToHistory, hcE, hl]
      · simpa [addToHistory, hcE, hl] using h
    · have hpush : (ed.history ++ [c]).getLast? = some c := List.getLast?_concat _
      by_cases hcap : (ed.history ++ [c]).length > MAX_HISTORY_SIZE
      · have hne : ed.history ≠ [] := by
          intro h0
          rw [h0] at hcap
          simp [MAX_HISTORY_SIZE] at hcap
        have hdrop : (ed.history ++ [c]).drop 1 = ed.history.drop 1 ++ [c] := by
          refine List.drop_append_of_le_length ?_
          cases hh : ed.history with
          | nil => exact absurd hh hne
          | cons a l => simp [hh]
        have hstate : addToHistory ed c
            = { ed with history := (ed.history ++ [c]).drop 1 } := by
          simp only [addToHistory, hcE, Bool.false_eq_true, if_false]
          rw [if_neg hl, if_pos hcap]
        have hlast2 : (addToHistory ed c).history.getLast? = some c := by
          rw [hstate]
          dsimp only
          rw [hdrop]
          exact List.getLast?_concat _
        refine ⟨?_, fun _ _ h3 => ?_, fun h => ?_, fun _ _ h3 => ?_⟩
        · rw [addToHistory, if_neg (by simp [hcE]), if_pos hlast2]
        · exfalso
          rw [List.length_append] at hcap
          simp [MAX_HISTORY_SIZE] at hcap h3
          omega
        · rw [hstate]
          dsimp only
          rw [hdrop]
          rw [List.length_append] at hcap ⊢
          simp only [List.length_drop]
          simp [MAX_HISTORY_SIZE] at hcap h ⊢
          omega
        · rw [hstate]
          dsimp only
          exact hdrop
      · have hstate : addToHistory ed c
            = { ed with history := ed.history ++ [c] } := by
          simp only [addToHistory, hcE, Bool.false_eq_true, if_false]
          rw [if_neg hl, if_neg hcap]
        have hlast2 : (addToHistory ed c).history.getLast? = some c := by
          rw [hstate]
          exact hpush
        refine ⟨?_, fun _ _ _ => ?_, fun h => ?_, fun _ _ h3 => ?_⟩
        · rw [addToHistory, if_neg (by simp [hcE]), if_pos hlast2]
        · rw [hstate]
          simp
        · rw [hstate]
          dsimp only
          rw [List.length_append] at hcap ⊢
          simpa using Nat.le_of_not_lt hcap
        · exfalso
          rw [List.length_append] at hcap
          simp [h3] at hcap

/-- C9 witness: a nonempty, non-duplicate add under the cap grows the history
by exactly one. -/
theorem c9_history_witness :
    (addToHistory { InputEditor.new with history := ["a".data] }
        "b".data).history.length
      = ({ InputEditor.new with history := ["a".data] } :
          InputEditor).history.length + 1 :=
  (c9_history { InputEditor.new with history := ["a".data] } "b".data).2.1
    (by decide) (by decide) (by decide)

/-- C9 counterexample: adding the empty command twice does not change the
history length at all, refuting the claim for every string `c`. -/
theorem c9_history_counterexample :
    ¬ ((addToHistory (addToHistory InputEditor.new []) []).history.length
        = InputEditor.new.history.length + 1) := by decide

/-! ## C5 -/

/-- C5: on the input `export K="` the `export` arm reaches the slice
`value_part[1..value_part.len() - 1]` with `value_part = "\""` of length 1,
i.e. the out-of-range slice `[1..0]`, which panics in Rust — the parse is not
total.  (On this input both `starts_with('"')` and `ends_with('"')` hold of
the single-character value part.) -/
theorem c5_export_panics : exportArm "export K=\"".data = .panics := by decide

/-! ## C8 -/

/-- C8 (amended): a bare `allowpath` or `denypath` emits no
`AllowPath`/`DenyPath` action (so the path sets are untouched), but it is not
ignored: `Builtins::parse` returns `None`, so `process_input` falls through to
external dispatch and returns an `ExecuteCaptured` action for the bare token
(captured mode, assuming the token is not configured as interactive). -/
theorem c8_bare_allowpath (pm : PermissionManager) (custom : List (Str × Str))
    (cfg : Config) (osEnv : List (Str × Str))
    (ha : cfg.interactive_commands.contains "allowpath".data = false)
    (hd : cfg.interactive_commands.contains "denypath".data = false) :
    processInput "allowpath".data pm custom cfg osEnv
      = .action (.ExecuteCaptured ⟨"allowpath".data, [], "allowpath".data⟩)
    ∧ processInput "denypath".data pm custom cfg osEnv
      = .action (.ExecuteCaptured ⟨"denypath".data, [], "denypath".data⟩) := by
  constructor
  · have h1 : ParsedCommand.parse "allowpath".data
        = some ⟨"allowpath".data, [], "allowpath".data⟩ := by decide
    have h2 : builtinParse ⟨"allowpath".data, [], "allowpath".data⟩
        = .notBuiltin := by decide
    unfold processInput
    rw [h1]
    dsimp only
    rw [h2]
    dsimp only
    unfold executionMode
    rw [ha]
    rfl
  · have h1 : ParsedCommand.parse "denypath".data
        = some ⟨"denypath".data, [], "denypath".data⟩ := by decide
    have h2 : builtinParse ⟨"denypath".data, [], "denypath".data⟩
        = .notBuiltin := by decide
    unfold processInput
    rw [h1]
    dsimp only
    rw [h2]
    dsimp only
    unfold executionMode
    rw [hd]
    rfl

/-- C8 witness: with the default configuration the bare `allowpath` line is
dispatched for captured external execution. -/
theorem c8_bare_allowpath_witness :
    processInput "allowpath".data PermissionManager.new [] Config.default []
      = .action (.ExecuteCaptured ⟨"allowpath".data, [], "allowpath".data⟩) :=
  (c8_bare_allowpath PermissionManager.new [] Config.default []
      (by decide) (by decide)).1

/-- C8 counterexample: the bare `allowpath` line is not ignored — it produces
an action (external captured execution), refuting "nothing is executed". -/
theorem c8_bare_allowpath_counterexample :
    processInput "allowpath".data PermissionManager.new [] Config.default []
        ≠ .noAction
    ∧ processInput "allowpath".data PermissionManager.new [] Config.default []
        = .action (.ExecuteCaptured
            ⟨"allowpath".data, [], "allowpath".data⟩) := by decide

/-! ## C7 -/

/-- When the value of `HOME` does not itself start with `~/`, the result of a
tilde expansion is a fixed point of tilde expansion. -/
theorem expandTilde_idem (h p : Str)
    (hh : "~/".data.isPrefixOf h = false) :
    expandTilde (some h) (expandTilde (some h) p) = expandTilde (some h) p := by
  have hdata : "~/".data = ['~', '/'] := rfl
  by_cases hp : ("~/".data.isPrefixOf p = true ∨ p = "~".data)
  · have hinner : expandTilde (some h) p = h ++ p.drop 1 := by
      unfold expandTilde
      rw [if_pos hp]
    rw [hinner]
    -- Either the expansion is not tilde-relative, or it is its own expansion.
    by_cases hq : ("~/".data.isPrefixOf (h ++ p.drop 1) = true
        ∨ (h ++ p.drop 1) = "~".data)
    · -- Analyze the shape of `h` and `p`.
      have hpshape : (∃ t, p = '~' :: '/' :: t) ∨ p = ['~'] := by
        rcases hp with hp1 | hp2
        · rw [hdata] at hp1
          cases p with
          | nil => exact absurd hp1 (by decide)
          | cons a q =>
            cases q with
            | nil =>
              exfalso
              revert hp1
              simp [List.isPrefixOf]
            | cons b t =>
              left
              refine ⟨t, ?_⟩
              simp only [List.isPrefixOf, Bool.and_eq_true, beq_iff_eq]
                at hp1
              rw [hp1.1, hp1.2.1]
        · right
          rw [hp2]
      rcases hq with hq1 | hq2
      · -- `h ++ p.drop 1` starts with `~/`: forces `h = ['~']`.
        have hhead : h = ['~'] := by
          rw [hdata] at hq1
          cases hh0 : h with
          | nil =>
            exfalso
            rw [hh0] at hq1
            simp only [List.nil_append] at hq1
            rcases hpshape with ⟨t, rfl⟩ | rfl
            · simp [List.isPrefixOf] at hq1
            · simp [List.isPrefixOf] at hq1
          | cons a h2 =>
            rw [hh0] at hq1
            simp only [List.cons_append, List.isPrefixOf, Bool.and_eq_true,
              beq_iff_eq] at hq1
            obtain ⟨rfl, hq1b⟩ := hq1
            cases hh2 : h2 with
            | nil => rfl
            | cons b h3 =>
              exfalso
              rw [hh2] at hq1b
              simp only [List.cons_append, List.isPrefixOf, Bool.and_eq_true,
                beq_iff_eq] at hq1b
              rw [hh0, hh2] at hh
              rw [hdata] at hh
              rw [hq1b.1] at hh
              simp [List.isPrefixOf] at hh
        subst hhead
        unfold expandTilde
        rw [if_pos (Or.inl hq1)]
        rcases hpshape with ⟨t, rfl⟩ | rfl <;> rfl
      · -- `h ++ p.drop 1 = "~"`: forces `h = ['~']` and `p = ['~']`.
        have hsplit : h = ['~'] ∧ p.drop 1 = [] := by
          rcases hpshape with ⟨t, rfl⟩ | rfl
          · exfalso
            have : h ++ '/' :: t = ['~'] := hq2
            cases h with
            | nil => simp at this
            | cons a h2 =>
              simp only [List.cons_append, List.cons.injEq] at this
              rcases this with ⟨rfl, h2t⟩
              exact absurd h2t (by simp)
          · constructor
            · simpa using hq2
            · rfl
        rw [hsplit.2, List.append_nil] at hq2 ⊢
        unfold expandTilde
        rw [if_pos (Or.inr hq2), hq2]
        rfl
    · unfold expandTilde
      rw [if_neg hq]
  · unfold expandTilde
    rw [if_neg hp, if_neg hp]

/-- C7 (amended): provided `HOME` does not itself begin with `~/`, inserting a
tilde-relative path and inserting its `HOME`-expanded form produce identical
`PermissionManager` states (for both `allow_path` and `deny_path`); the stored
entry is the expanded form; with `HOME` unset the path is stored unchanged. -/
theorem c7_tilde_paths (pm : PermissionManager) (h p : Str)
    (hp : "~/".data.isPrefixOf p = true ∨ p = "~".data)
    (hh : "~/".data.isPrefixOf h = false) :
    allowPath pm (some h) p = allowPath pm (some h) (expandTilde (some h) p)
    ∧ denyPath pm (some h) p = denyPath pm (some h) (expandTilde (some h) p)
    ∧ (allowPath pm (some h) p).allowed_paths
        = insert (expandTilde (some h) p) pm.allowed_paths
    ∧ allowPath pm none p
        = { pm with denied_paths := pm.denied_paths.erase p
                    allowed_paths := insert p pm.allowed_paths } := by
  have hidem := expandTilde_idem h p hh
  refine ⟨?_, ?_, rfl, ?_⟩
  · unfold allowPath
    rw [hidem]
  · unfold denyPath
    rw [hidem]
  · have hnone : expandTilde none p = p := by
      unfold expandTilde
      split <;> rfl
    unfold allowPath
    rw [hnone]

/-- C7 witness: with `HOME = /home/u`, inserting `~/x` and inserting
`/home/u/x` produce the same state. -/
theorem c7_tilde_paths_witness :
    allowPath PermissionManager.new (some "/home/u".data) "~/x".data
      = allowPath PermissionManager.new (some "/home/u".data)
          (expandTilde (some "/home/u".data) "~/x".data) :=
  (c7_tilde_paths PermissionManager.new "/home/u".data "~/x".data
      (by decide) (by decide)).1

/-- C7 counterexample: with `HOME = ~/y` (a value that itself begins with
`~/`) the claim fails: inserting `~` stores `~/y`, while inserting the
expanded `~/y` stores `~/y/y`, so the two states differ. -/
theorem c7_tilde_paths_counterexample :
    allowPath PermissionManager.new (some "~/y".data) "~".data
      ≠ allowPath PermissionManager.new (some "~/y".data)
          (expandTilde (some "~/y".data) "~".data) := by decide

/-! ## C6 -/

/-- Unfolding: a plain character is copied. -/
theorem expandAux_text_cons (pm : PermissionManager) (cu os : List (Str × Str))
    (c : Char) (r : Str) (hc : c ≠ '$') :
    expandAux pm cu os (c :: r) .text = c :: expandAux pm cu os r .text := by
  rw [expandAux.eq_def]
  dsimp only
  rw [if_neg hc]

/-- Unfolding: `$` followed by a non-`{` character starts a `$NAME`
reference at that character. -/
theorem expandAux_text_dollar_cons (pm : PermissionManager)
    (cu os : List (Str × Str)) (a : Char) (t : Str) (ha : a ≠ '{') :
    expandAux pm cu os ('$' :: a :: t) .text
      = expandAux pm cu os (a :: t) (.dollarName []) := by
  rw [expandAux.eq_def]
  dsimp only
  rw [if_pos rfl, if_neg ha]

/-- Unfolding: `$` followed by `{` starts a `${NAME}` reference. -/
theorem expandAux_text_dollar_brace (pm : PermissionManager)
    (cu os : List (Str × Str)) (t : Str) :
    expandAux pm cu os ('$' :: '{' :: t) .text
      = expandAux pm cu os t (.dollarBrace []) := rfl

/-- Unfolding: inside `$NAME`, a `$` boundary ends the reference and is
re-dispatched exactly as in plain text. -/
theorem expandAux_dollarName_dollar (pm : PermissionManager)
    (cu os : List (Str × Str)) (r : Str) (n : Str) :
    expandAux pm cu os ('$' :: r) (.dollarName n)
      = getVarValue pm cu os n.reverse
        ++ expandAux pm cu os ('$' :: r) .text := by
  cases r <;> rfl

/-- Unfolding: inside `$NAME`, a name character is accumulated. -/
theorem expandAux_dollarName_namechar (pm : PermissionManager)
    (cu os : List (Str × Str)) (c : Char) (r : Str) (n : Str) (hc : c ≠ '$')
    (hn : isVarNameChar c = true) :
    expandAux pm cu os (c :: r) (.dollarName n)
      = expandAux pm cu os r (.dollarName (c :: n)) := by
  rw [expandAux.eq_def]
  dsimp only
  rw [if_neg hc, if_pos hn]

/-- Unfolding: inside `$NAME`, a non-name, non-`$` boundary character ends the
reference and is emitted literally. -/
theorem expandAux_dollarName_boundary (pm : PermissionManager)
    (cu os : List (Str × Str)) (c : Char) (r : Str) (n : Str) (hc : c ≠ '$')
    (hn : isVarNameChar c = false) :
    expandAux pm cu os (c :: r) (.dollarName n)
      = getVarValue pm cu os n.reverse ++ c :: expandAux pm cu os r .text := by
  rw [expandAux.eq_def]
  dsimp only
  rw [if_neg hc, if_neg (by simp [hn])]

/-- Unfolding: inside `${NAME}`, the closing brace resolves the reference. -/
theorem expandAux_dollarBrace_close (pm : PermissionManager)
    (cu os : List (Str × Str)) (r : Str) (n : Str) :
    expandAux pm cu os ('}' :: r) (.dollarBrace n)
      = getVarValue pm cu os n.reverse ++ expandAux pm cu os r .text := rfl

/-- Unfolding: inside `${NAME}`, any other character is accumulated. -/
theorem expandAux_dollarBrace_other (pm : PermissionManager)
    (cu os : List (Str × Str)) (c : Char) (r : Str) (n : Str) (hc : c ≠ '}') :
    expandAux pm cu os (c :: r) (.dollarBrace n)
      = expandAux pm cu os r (.dollarBrace (c :: n)) := by
  rw [expandAux.eq_def]
  dsimp only
  rw [if_neg hc]

/-- Scanning a maximal run of name characters in `$NAME` mode consumes exactly
that run as the name, then continues in text mode. -/
theorem expandAux_scan_name (pm : PermissionManager)
    (cu os : List (Str × Str)) (name rest : Str) (revAcc : Str)
    (hname : ∀ c ∈ name, isVarNameChar c = true)
    (hrest : ∀ c, rest.head? = some c → isVarNameChar c = false) :
    expandAux pm cu os (name ++ rest) (.dollarName revAcc)
      = getVarValue pm cu os (revAcc.reverse ++ name)
        ++ expandAux pm cu os rest .text := by
  induction name generalizing revAcc with
  | nil =>
    simp only [List.nil_append, List.append_nil]
    cases rest with
    | nil =>
      have h1 : expandAux pm cu os ([] : Str) ExpandMode.text = [] := rfl
      have h2 : expandAux pm cu os ([] : Str) (.dollarName revAcc)
          = getVarValue pm cu os revAcc.reverse := rfl
      rw [h1, h2, List.append_nil]
    | cons c r =>
      have hc : isVarNameChar c = false := hrest c rfl
      by_cases hdol : c = '$'
      · subst hdol
        rw [expandAux_dollarName_dollar]
      · rw [expandAux_dollarName_boundary pm cu os c r revAcc hdol hc,
          expandAux_text_cons pm cu os c r hdol]
  | cons a as ih =>
    have ha := hname a (by simp)
    have hadol : a ≠ '$' := by
      intro h
      rw [h] at ha
      exact absurd ha (by decide)
    rw [List.cons_append,
      expandAux_dollarName_namechar pm cu os a (as ++ rest) revAcc hadol ha,
      ih (a :: revAcc) (fun c hc => hname c (List.mem_cons_of_mem a hc))]
    simp [List.reverse_cons, List.append_assoc]

/-- Scanning in `${NAME}` mode consumes up to the closing brace. -/
theorem expandAux_scan_brace (pm : PermissionManager)
    (cu os : List (Str × Str)) (name rest : Str) (revAcc : Str)
    (hname : ∀ c ∈ name, c ≠ '}') :
    expandAux pm cu os (name ++ '}' :: rest) (.dollarBrace revAcc)
      = getVarValue pm cu os (revAcc.reverse ++ name)
        ++ expandAux pm cu os rest .text := by
  induction name generalizing revAcc with
  | nil =>
    simp only [List.nil_append, List.append_nil]
    exact expandAux_dollarBrace_close pm cu os rest revAcc
  | cons a as ih =>
    rw [List.cons_append,
      expandAux_dollarBrace_other pm cu os a (as ++ '}' :: rest) revAcc
        (hname a (by simp)),
      ih (a :: revAcc) (fun c hc => hname c (List.mem_cons_of_mem a hc))]
    simp [List.reverse_cons, List.append_assoc]

/-- C6 (amended): `$` followed by `{NAME}` consumes up to the closing `}`;
`$` followed by a maximal run of characters satisfying Rust
`char::is_alphanumeric` or `_` (not the ASCII-only class `[A-Za-z0-9_]` the
claim states) consumes that run as the name; the name resolves first in the
custom env, else through `get_allowed_env_vars`, and both a redacted and an
absent variable expand to the empty string.  Name characters appear as
positive classifications of the model (which imply the Rust classification
for every character), and the boundary character is restricted to code points
below U+0100, where the model coincides with Rust exactly — so every instance
of this statement is a statement about the program. -/
theorem c6_expand_variables (pm : PermissionManager)
    (cu os : List (Str × Str)) :
    (∀ name rest : Str, name ≠ [] → (∀ c ∈ name, isVarNameChar c = true) →
        (∀ c, rest.head? = some c → c.toNat < 0x100 ∧ isVarNameChar c = false) →
        expandVariables pm cu os ('$' :: (name ++ rest))
          = getVarValue pm cu os name ++ expandVariables pm cu os rest)
    ∧ (∀ name rest : Str, (∀ c ∈ name, c ≠ '}') →
        expandVariables pm cu os ('$' :: '{' :: (name ++ '}' :: rest))
          = getVarValue pm cu os name ++ expandVariables pm cu os rest)
    ∧ (∀ name v, cu.lookup name = some v → getVarValue pm cu os name = v)
    ∧ (∀ name, cu.lookup name = none →
        (∀ kv ∈ getAllowedEnvVars pm os, kv.1 = name →
          "[REDACTED".data.isPrefixOf kv.2 = true) →
        getVarValue pm cu os name = []) := by
  refine ⟨?_, ?_, ?_, ?_⟩
  · intro name rest hne hname hrest
    obtain ⟨a, as, rfl⟩ := List.exists_cons_of_ne_nil hne
    have ha := hname a (by simp)
    have habrace : a ≠ '{' := by
      intro h
      rw [h] at ha
      exact absurd ha (by decide)
    unfold expandVariables
    rw [List.cons_append,
      expandAux_text_dollar_cons pm cu os a (as ++ rest) habrace,
      ← List.cons_append,
      expandAux_scan_name pm cu os (a :: as) rest [] hname
        (fun c hc => (hrest c hc).2)]
    simp
  · intro name rest hname
    unfold expandVariables
    rw [expandAux_text_dollar_brace,
      expandAux_scan_brace pm cu os name rest [] hname]
    simp
  · intro name v h
    unfold getVarValue
    rw [h]
  · intro name hnone hred
    unfold getVarValue
    rw [hnone]
    have hfind : (getAllowedEnvVars pm os).find?
        (fun kv => kv.1 == name && !("[REDACTED".data.isPrefixOf kv.2))
        = none := by
      apply List.find?_eq_none.mpr
      intro kv hkv
      by_cases hk : kv.1 = name
      · have := hred kv hkv hk
        simp [hk, this]
      · simp [hk]
    rw [hfind]

/-- C6 witness: `$X` followed by the boundary `-` consumes exactly `X` and
resolves it. -/
theorem c6_expand_variables_witness :
    expandVariables PermissionManager.new [("X".data, "v".data)] [] "$X-".data
      = getVarValue PermissionManager.new [("X".data, "v".data)] [] "X".data
        ++ expandVariables PermissionManager.new [("X".data, "v".data)] []
            "-".data :=
  (c6_expand_variables PermissionManager.new [("X".data, "v".data)] []).1
    "X".data "-".data (by decide) (by decide)
    (fun c hc => by
      injection hc with h
      subst h
      exact ⟨by decide, by decide⟩)

/-- C6 counterexample: on `$Xé` the code consumes `é` (Unicode alphanumeric)
into the name, looks up `Xé`, and produces the empty string — not the `vé`
demanded by the claim's ASCII-only name class. -/
theorem c6_expand_variables_counterexample :
    expandVariables PermissionManager.new [("X".data, "v".data)] []
        "$Xé".data = []
    ∧ expandVariables PermissionManager.new [("X".data, "v".data)] []
        "$Xé".data ≠ "vé".data := by decide

end DShell

